import Mathlib

/-!
Verification development for the lecture voice-to-notes service.

The definitions below are a shallow embedding of the Python sources:
  - app/services/gemini_service.py  (note synthesis, validation, fallback)
  - app/services/stt_service.py     (transcription polling loop)
  - app/main.py                     (upload pipeline, delete and list endpoints)

Python strings are modelled as Lean String; Python string primitives that
the code uses (strip, slicing, split, join) are re-implemented on the
underlying character list so that all definitions evaluate by kernel
reduction.  JSON-dict fields that may be absent, null, or carry a value are
modelled by the JField type.  External effects (the generative provider,
the transcription provider, the document store, the file system) are passed
in as explicit outcome parameters, mirroring the exact control flow of the
source at each success/raise branch.
-/

/-- Model of a Python string primitive: drop leading whitespace characters. -/
def dropLeadingWs : List Char → List Char
  | [] => []
  | c :: cs => if c.isWhitespace then dropLeadingWs cs else c :: cs

/-- Model of Python str.strip(): remove leading and trailing whitespace. -/
def pyStrip (s : String) : String :=
  String.mk ((dropLeadingWs ((dropLeadingWs s.data).reverse)).reverse)

/-- Model of Python slicing s[:n] (by characters). -/
def pyTake (n : Nat) (s : String) : String :=
  String.mk (s.data.take n)

/-- Helper for pySplit: split a character list at whitespace characters. -/
def splitWsChars : List Char → List (List Char)
  | [] => [[]]
  | c :: cs =>
    match splitWsChars cs with
    | [] => [[]]
    | w :: ws => if c.isWhitespace then [] :: w :: ws else (c :: w) :: ws

/-- Model of Python str.split() with no argument: the whitespace-separated
words of the string, empty pieces discarded. -/
def pySplit (s : String) : List String :=
  ((splitWsChars s.data).filter (fun w => !w.isEmpty)).map String.mk

/-- Model of Python " ".join(ws). -/
def joinSpace (ws : List String) : String :=
  String.intercalate " " ws

/-- A field of a parsed JSON object: the key may be absent, present with a
null value, or present with a value of the expected type. -/
inductive JField (α : Type) where
  | absent : JField α
  | null : JField α
  | val : α → JField α
deriving DecidableEq

/-- True when the key is present with a non-null value. -/
def JField.isVal {α : Type} : JField α → Bool
  | .val _ => true
  | _ => false

/-- gemini_service.py line 180: replace an absent or null field by a default
(the top-level rule of _validate_notes_structure). -/
def JField.fillAbsentOrNull {α : Type} (d : α) : JField α → JField α
  | .absent => .val d
  | .null => .val d
  | .val a => .val a

/-- gemini_service.py lines 186-193: replace a field only when the key is
missing (the per-section rule of _validate_notes_structure); a present null
value is kept. -/
def JField.fillAbsent {α : Type} : JField α → JField α → JField α
  | .absent, d => d
  | x, _ => x

/-- Read the value of a field, with a default for absent/null. -/
def JField.getD {α : Type} (d : α) : JField α → α
  | .val a => a
  | _ => d

/-- One element of the "sections" array of the parsed generative response. -/
structure RawSection where
  heading : JField String
  content : JField String
  bullet_points : JField (List String)
  timestamp : JField String
deriving DecidableEq

/-- The parsed generative response as a JSON object with the seven
StructuredNotes keys, each possibly absent or null. -/
structure RawNotes where
  title : JField String
  summary : JField String
  sections : JField (List RawSection)
  key_terms : JField (List String)
  formulas : JField (List String)
  action_items : JField (List String)
  questions : JField (List String)
deriving DecidableEq

/-- gemini_service.py lines 185-193: fill the missing keys of one section. -/
def fixSection (s : RawSection) : RawSection :=
  { heading := s.heading.fillAbsent (.val "Untitled Section")
    content := s.content.fillAbsent (.val "")
    bullet_points := s.bullet_points.fillAbsent (.val [])
    timestamp := s.timestamp.fillAbsent .null }

/-- gemini_service.py lines 166-203, GeminiService._validate_notes_structure:
fill every absent-or-null top-level key with its default; if the resulting
sections list is empty, synthesize a single Overview section from the
summary, otherwise fill the missing keys of every section element. -/
def validate_notes_structure (notes : RawNotes) : RawNotes :=
  let title := notes.title.fillAbsentOrNull "Untitled Lecture"
  let summary := notes.summary.fillAbsentOrNull "Summary unavailable"
  let key_terms := notes.key_terms.fillAbsentOrNull []
  let formulas := notes.formulas.fillAbsentOrNull []
  let action_items := notes.action_items.fillAbsentOrNull []
  let questions := notes.questions.fillAbsentOrNull []
  let sections0 := (notes.sections.fillAbsentOrNull []).getD []
  let sections :=
    if sections0.isEmpty then
      [{ heading := JField.val "Overview"
         content := JField.val (summary.getD "Summary unavailable")
         bullet_points := JField.val ["See transcript for full details"]
         timestamp := JField.null }]
    else sections0.map fixSection
  { title := title, summary := summary, sections := JField.val sections
    key_terms := key_terms, formulas := formulas
    action_items := action_items, questions := questions }

/-- gemini_service.py lines 205-230, GeminiService._create_fallback_notes:
the deterministic degraded notes value built from the transcript and the
caught error message. -/
def create_fallback_notes (transcript : String) (error_msg : String) : RawNotes :=
  let words := pySplit transcript
  let preview :=
    if words.length > 100 then joinSpace (words.take 100) ++ "..." else transcript
  { title := JField.val "Lecture Notes (Auto-generated)"
    summary := JField.val
      ("Automatic transcription available. Manual review recommended. Error: "
        ++ pyTake 100 error_msg)
    sections := JField.val
      [{ heading := JField.val "Transcript Preview"
         content := JField.val preview
         bullet_points := JField.val
           ["Full transcript available",
            "AI note generation encountered an error",
            "Please review the raw transcript"]
         timestamp := JField.null }]
    key_terms := JField.val []
    formulas := JField.val []
    action_items := JField.val ["Review full transcript manually"]
    questions := JField.val [] }

/-- Outcome of the generative-provider interaction inside the try block of
_generate_notes_sync: either some step (the provider call, the JSON
extraction, or the structure validation) raised an exception carrying a
message, or extraction produced a parsed JSON object. -/
inductive GenOutcome where
  | raiseExc : String → GenOutcome
  | parsed : RawNotes → GenOutcome
deriving DecidableEq

/-- gemini_service.py line 34: the fixed character budget for the prompt. -/
def maxChars : Nat := 30000

/-- gemini_service.py lines 35-37: truncate an over-long transcript and
append the explicit truncation marker. -/
def truncateTranscript (transcript : String) : String :=
  if transcript.length > maxChars then
    pyTake maxChars transcript ++ "\n\n[Transcript truncated due to length]"
  else transcript

/-- gemini_service.py lines 26-84, GeminiService._generate_notes_sync:
raise ValueError when the transcript is empty or its stripped length is
below 50 (before any provider interaction); otherwise truncate, run the
provider, and either validate the parsed object or, when anything in the
try block raised, return the fallback notes. -/
def generate_notes_sync (transcript : String) (outcome : GenOutcome) :
    Except String RawNotes :=
  if transcript = "" ∨ (pyStrip transcript).length < 50 then
    Except.error "Transcript is too short or empty"
  else
    let t := truncateTranscript transcript
    match outcome with
    | .raiseExc msg => Except.ok (create_fallback_notes t msg)
    | .parsed raw => Except.ok (validate_notes_structure raw)

/-- The property claimed of every synthesis result: all seven top-level
keys present with non-null values, and sections a non-empty list. -/
def RawNotes.wellFormed (n : RawNotes) : Bool :=
  n.title.isVal && n.summary.isVal && n.key_terms.isVal && n.formulas.isVal
    && n.action_items.isVal && n.questions.isVal
    && (match n.sections with
        | .val l => !l.isEmpty
        | _ => false)

/-- Modelled from the spec (section 4.2 step 5): a required top-level field
keeps its value when present and non-null, and is filled with the named
default otherwise. -/
def specFillTop {α : Type} (d : α) : JField α → JField α
  | .val a => JField.val a
  | _ => JField.val d

/-- Modelled from the spec (section 4.2 step 5): every element of sections
gets a default heading, content, bullet_points and timestamp for precisely
the keys that are missing. -/
def specFixSection (s : RawSection) : RawSection :=
  { heading := match s.heading with
      | .absent => JField.val "Untitled Section"
      | h => h
    content := match s.content with
      | .absent => JField.val ""
      | c => c
    bullet_points := match s.bullet_points with
      | .absent => JField.val []
      | b => b
    timestamp := match s.timestamp with
      | .absent => JField.null
      | ts => ts }

/-- Modelled from the spec (section 4.2 step 5), for comparison with the
source-derived validator: fill each absent-or-null top-level field with its
named default; when sections is empty (missing, null, or the empty list)
synthesize exactly one Overview section carrying the summary; when
non-empty give every element defaults for its missing keys. -/
def normalizePerSpec (n : RawNotes) : RawNotes :=
  { title := specFillTop "Untitled Lecture" n.title
    summary := specFillTop "Summary unavailable" n.summary
    sections := JField.val
      (match n.sections with
       | .val (s1 :: rest) => (s1 :: rest).map specFixSection
       | _ =>
         [{ heading := JField.val "Overview"
            content := JField.val
              (match n.summary with
               | .val a => a
               | _ => "Summary unavailable")
            bullet_points := JField.val ["See transcript for full details"]
            timestamp := JField.null }])
    key_terms := specFillTop [] n.key_terms
    formulas := specFillTop [] n.formulas
    action_items := specFillTop [] n.action_items
    questions := specFillTop [] n.questions }

/-- One body of the JSON returned by the transcription-provider status
endpoint: the status string, the transcript text, and the optional
provider error message (result.get of the error key). -/
structure PollResponse where
  status : String
  text : String
  errMsg : Option String
deriving DecidableEq

/-- Python str() of an optional value as it appears inside an f-string:
None renders as the four-letter word. -/
def pyShowOpt : Option String → String
  | none => "None"
  | some s => s

/-- A poll response with a terminal status. -/
def isTerminal (r : PollResponse) : Bool :=
  r.status = "completed" || r.status = "error"

/-- stt_service.py lines 58-76, AssemblyAIService.get_transcript: poll the
status endpoint; return the full response on status completed, raise on
status error, otherwise sleep five seconds and poll again.  The source loop
is unbounded (while True); it is modelled with explicit fuel, the answer
none meaning that the loop is still running after that many polls.  The
second result component is the simulated elapsed time in seconds
accumulated by the five-second sleeps. -/
def get_transcript (polls : Nat → PollResponse) :
    Nat → Nat → Nat → Option (Except String PollResponse × Nat)
  | 0, _, _ => none
  | fuel + 1, idx, elapsed =>
    let r := polls idx
    if r.status = "completed" then
      some (Except.ok r, elapsed)
    else if r.status = "error" then
      some (Except.error ("Transcription failed: " ++ pyShowOpt r.errMsg), elapsed)
    else
      get_transcript polls fuel (idx + 1) (elapsed + 5)

/-- Status values of a lecture record. -/
inductive LStatus where
  | processing
  | completed
  | failed
deriving DecidableEq

/-- The observable state touched by one pipeline run, restricted to the one
lecture identifier the run freshly creates (the identifier is a fresh
object id, so no pre-existing note references it): the lecture record
status field (none before the insert), its error field, the number of note
records referencing the lecture id, and whether the staged transient asset
file is present in storage. -/
structure PipeState where
  status : Option LStatus
  errorField : Option String
  notes : Nat
  fileExists : Bool
deriving DecidableEq

/-- Outcomes of the external operations one upload run performs, fixing the
branch the source takes at each call site: the transcription result, the
generative-provider outcome, and success of each document-store write and
of the file removal. -/
structure PipeEnv where
  transcribeResult : Except String String
  genOutcome : GenOutcome
  lectureInsertOk : Bool
  noteInsertOk : Bool
  updCompletedOk : Bool
  updFailedOk : Bool
  removeOk : Bool

/-- What the upload endpoint hands back to the HTTP layer: a success body
carrying the preview title and summary of the stored notes, an
HTTPException with a status code and detail, or an exception that escaped
the handler uncaught. -/
inductive RunResult where
  | success : JField String → JField String → RunResult
  | httpError : Nat → String → RunResult
  | uncaught : String → RunResult
deriving DecidableEq

/-- main.py lines 167-169 (and 144-145 when the lecture insert failed):
the unprotected cleanup of the staged file; the removal is attempted only
when the file exists, and a removal failure propagates as an uncaught
exception because this call site has no try/except around it. -/
def cleanupUnprotected (env : PipeEnv) (res : RunResult) (st : PipeState) :
    RunResult × PipeState :=
  if st.fileExists then
    if env.removeOk then (res, { st with fileExists := false })
    else (RunResult.uncaught "os.remove raised", st)
  else (res, st)

/-- main.py lines 159-172, the except block of upload_lecture when the
lecture id is in scope: set the record to failed with the error message,
then run the unprotected cleanup, then re-raise as HTTPException 500.  When
the failed-status update itself raises, that exception propagates at once
and the cleanup is skipped. -/
def failPath (env : PipeEnv) (st : PipeState) (emsg : String) :
    RunResult × PipeState :=
  if env.updFailedOk then
    cleanupUnprotected env (RunResult.httpError 500 emsg)
      { st with status := some LStatus.failed, errorField := some emsg }
  else
    (RunResult.uncaught "update to failed raised", st)

/-- main.py lines 83-172, the body of upload_lecture from the point the
staged file is written: insert the lecture record with status processing,
transcribe, synthesize notes, insert the note record, update the status to
completed, remove the staged file inside try/except-pass, and return the
success body; any exception lands in the except block modelled by
failPath (or, when the lecture insert itself raised, in the same block
without a status update). -/
def upload_lecture (env : PipeEnv) : RunResult × PipeState :=
  let st0 : PipeState :=
    { status := none, errorField := none, notes := 0, fileExists := true }
  if env.lectureInsertOk then
    let st1 := { st0 with status := some LStatus.processing }
    match env.transcribeResult with
    | .error e => failPath env st1 e
    | .ok text =>
      match generate_notes_sync text env.genOutcome with
      | .error e => failPath env st1 e
      | .ok notes =>
        if env.noteInsertOk then
          let st2 := { st1 with notes := st1.notes + 1 }
          if env.updCompletedOk then
            let st3 := { st2 with status := some LStatus.completed }
            let st4 := if env.removeOk then { st3 with fileExists := false } else st3
            (RunResult.success notes.title notes.summary, st4)
          else failPath env st2 "update to completed raised"
        else failPath env st1 "note insert raised"
  else
    cleanupUnprotected env (RunResult.httpError 500 "lecture insert raised") st0

/-- The terminal-state invariant claimed for every upload run: the record
ends completed with exactly one note record referencing it, or failed with
none (in particular it exists and is not left processing). -/
def terminalInvariant (st : PipeState) : Prop :=
  (st.status = some LStatus.completed ∧ st.notes = 1)
    ∨ (st.status = some LStatus.failed ∧ st.notes = 0)

/-- A stored lecture document (the fields the list and delete endpoints
touch). -/
structure LectureDoc where
  id : String
  user_id : String
  title : String
  upload_date : Nat
  file_path : Option String
deriving DecidableEq

/-- A stored note document (the fields the delete endpoint touches). -/
structure NoteDoc where
  lecture_id : String
  user_id : String
deriving DecidableEq

/-- The two document collections. -/
structure DB where
  lectures : List LectureDoc
  notes : List NoteDoc
deriving DecidableEq

/-- Result of the delete endpoint. -/
inductive DeleteResult where
  | ok : String → DeleteResult
  | httpError : Nat → String → DeleteResult
deriving DecidableEq

/-- The HTTP status code of a delete-endpoint result, when it is an error. -/
def statusCodeOf : DeleteResult → Option Nat
  | .ok _ => none
  | .httpError c _ => some c

/-- main.py lines 221-241, delete_lecture: first delete every note whose
lecture_id equals the given id, then delete the lecture document; when no
lecture was deleted, an HTTPException 404 is raised inside the try block,
which the catch-all except re-raises as HTTPException 500 with the str of
the caught exception as its detail. -/
def delete_lecture (db : DB) (lecture_id : String) : DeleteResult × DB :=
  let notes2 := db.notes.filter (fun n => n.lecture_id != lecture_id)
  let lectures2 := db.lectures.eraseP (fun l => l.id == lecture_id)
  let db2 : DB := { lectures := lectures2, notes := notes2 }
  if db.lectures.any (fun l => l.id == lecture_id) then
    (DeleteResult.ok "Lecture deleted successfully", db2)
  else
    (DeleteResult.httpError 500 "404: Lecture not found", db2)

/-- main.py lines 197-218, get_user_lectures: find the lectures of the
user, sort by upload date descending, take at most 100, and strip the
file_path field from every returned document. -/
def get_user_lectures (db : DB) (user_id : String) : List LectureDoc :=
  let found := db.lectures.filter (fun l => l.user_id == user_id)
  let sorted := found.mergeSort (fun a b => decide (b.upload_date ≤ a.upload_date))
  (sorted.take 100).map (fun l => { l with file_path := none })

/-- A transcript comfortably above the 50-character precondition, used by
the concrete witnesses below. -/
def sampleTranscript : String :=
  "Today we cover the fundamentals of thermodynamics, including entropy, enthalpy and the second law."

/-- A parsed generative response in which every key is missing: the
schema-incomplete response. -/
def rawAllAbsent : RawNotes :=
  { title := JField.absent, summary := JField.absent, sections := JField.absent
    key_terms := JField.absent, formulas := JField.absent
    action_items := JField.absent, questions := JField.absent }

/-- The title field of a synthesis result, when it returned one. -/
def resultTitle : Except String RawNotes → Option (JField String)
  | .ok n => some n.title
  | .error _ => none

theorem isVal_fillAbsentOrNull {α : Type} (d : α) (f : JField α) :
    (f.fillAbsentOrNull d).isVal = true := by
  cases f <;> rfl

theorem pyStrip_empty : pyStrip "" = "" := rfl

theorem validate_wellFormed (raw : RawNotes) :
    (validate_notes_structure raw).wellFormed = true := by
  simp only [validate_notes_structure, RawNotes.wellFormed]
  simp only [isVal_fillAbsentOrNull, Bool.and_true, Bool.true_and]
  cases hl : (raw.sections.fillAbsentOrNull []).getD [] with
  | nil => simp [hl]
  | cons a as => simp [hl]

/-- C2: for every transcript whose stripped length is at least 50
characters, the synthesizer returns a notes value with all seven top-level
fields present and a non-empty sections list, whatever the generative
provider did (raised, or produced any parsed object). -/
theorem generate_notes_wellformed (t : String) (o : GenOutcome)
    (h : 50 ≤ (pyStrip t).length) :
    ∃ n, generate_notes_sync t o = Except.ok n ∧ n.wellFormed = true := by
  have hne : ¬(t = "" ∨ (pyStrip t).length < 50) := by
    rintro (rfl | hlt)
    · rw [pyStrip_empty] at h
      simp at h
    · omega
  unfold generate_notes_sync
  rw [if_neg hne]
  cases o with
  | raiseExc msg =>
    refine ⟨_, rfl, ?_⟩
    simp [create_fallback_notes, RawNotes.wellFormed, JField.isVal]
  | parsed raw =>
    exact ⟨_, rfl, validate_wellFormed raw⟩

/-- C2 witness: a concrete long transcript with a raising provider. -/
theorem generate_notes_wellformed_witness :
    50 ≤ (pyStrip sampleTranscript).length ∧
      ∃ n, generate_notes_sync sampleTranscript (GenOutcome.raiseExc "network unreachable")
          = Except.ok n ∧ n.wellFormed = true :=
  ⟨by decide,
    generate_notes_wellformed sampleTranscript (GenOutcome.raiseExc "network unreachable")
      (by decide)⟩

/-- C3: for every transcript whose stripped length is below 50 characters,
the synthesizer raises before entering its try block, for every provider
outcome alike (so no provider call is issued and nothing catches the
error). -/
theorem generate_notes_short_raises (t : String) (o : GenOutcome)
    (h : (pyStrip t).length < 50) :
    generate_notes_sync t o = Except.error "Transcript is too short or empty" := by
  unfold generate_notes_sync
  rw [if_pos (Or.inr h)]

/-- C3 witness: a ten-character transcript with a provider outcome that
would have produced notes. -/
theorem generate_notes_short_raises_witness :
    (pyStrip "ten chars.").length < 50 ∧
      generate_notes_sync "ten chars." (GenOutcome.parsed rawAllAbsent)
        = Except.error "Transcript is too short or empty" :=
  ⟨by decide,
    generate_notes_short_raises "ten chars." (GenOutcome.parsed rawAllAbsent) (by decide)⟩

/-- C4 counterexample: a schema-incomplete provider response (a parsed JSON
object with every key missing) does not produce the fallback value; the
validator normalizes it instead, so the title is the validator default and
not the fallback title the claim requires. -/
theorem generate_notes_incomplete_not_fallback :
    resultTitle (generate_notes_sync sampleTranscript (GenOutcome.parsed rawAllAbsent))
        = some (JField.val "Untitled Lecture")
      ∧ JField.val "Untitled Lecture" ≠ JField.val "Lecture Notes (Auto-generated)" := by
  constructor
  · decide
  · decide

/-- C4 (amended): for every transcript passing the length precondition,
whenever a step inside the try block raised (network failure, extraction
failure, validation failure), the exception is caught and the synthesizer
returns the deterministic fallback value: the auto-generated title, a
summary embedding the error message truncated to 100 characters, exactly
one Transcript Preview section whose content is the first 100 words of the
(possibly truncated) transcript, empty key_terms, formulas and questions,
and exactly one manual-review action item. -/
theorem generate_notes_raise_returns_fallback (t msg : String)
    (h : 50 ≤ (pyStrip t).length) :
    generate_notes_sync t (GenOutcome.raiseExc msg) = Except.ok
      { title := JField.val "Lecture Notes (Auto-generated)"
        summary := JField.val
          ("Automatic transcription available. Manual review recommended. Error: "
            ++ pyTake 100 msg)
        sections := JField.val
          [{ heading := JField.val "Transcript Preview"
             content := JField.val
               (if (pySplit (truncateTranscript t)).length > 100 then
                  joinSpace ((pySplit (truncateTranscript t)).take 100) ++ "..."
                else truncateTranscript t)
             bullet_points := JField.val
               ["Full transcript available",
                "AI note generation encountered an error",
                "Please review the raw transcript"]
             timestamp := JField.null }]
        key_terms := JField.val []
        formulas := JField.val []
        action_items := JField.val ["Review full transcript manually"]
        questions := JField.val [] } := by
  have hne : ¬(t = "" ∨ (pyStrip t).length < 50) := by
    rintro (rfl | hlt)
    · rw [pyStrip_empty] at h
      simp at h
    · omega
  unfold generate_notes_sync
  rw [if_neg hne]
  rfl

/-- C4 witness: a concrete long transcript with a raising provider call
yields exactly the fallback value. -/
theorem generate_notes_raise_returns_fallback_witness :
    50 ≤ (pyStrip sampleTranscript).length ∧
      generate_notes_sync sampleTranscript (GenOutcome.raiseExc "network unreachable 504")
        = Except.ok (create_fallback_notes sampleTranscript "network unreachable 504") := by
  refine ⟨by decide, ?_⟩
  rw [generate_notes_raise_returns_fallback sampleTranscript "network unreachable 504" (by decide)]
  rfl

theorem fixSection_eq_specFixSection (x : RawSection) :
    fixSection x = specFixSection x := by
  obtain ⟨h, c, b, ts⟩ := x
  cases h <;> cases c <;> cases b <;> cases ts <;> rfl

/-- C5: the source validator coincides, on every parsed response, with the
normalization the spec describes: each absent-or-null top-level field gets
its named default, an empty sections list becomes exactly one Overview
section built from the (already defaulted) summary, and every element of a
non-empty sections list gets defaults for precisely its missing keys. -/
theorem validate_matches_spec (n : RawNotes) :
    validate_notes_structure n = normalizePerSpec n := by
  obtain ⟨t, s, sec, kt, f, ai, q⟩ := n
  simp only [validate_notes_structure, normalizePerSpec, RawNotes.mk.injEq]
  refine ⟨?_, ?_, ?_, ?_, ?_, ?_, ?_⟩
  · cases t <;> rfl
  · cases s <;> rfl
  · cases sec with
    | absent => cases s <;> rfl
    | null => cases s <;> rfl
    | val l =>
      cases l with
      | nil => cases s <;> rfl
      | cons a as =>
        show JField.val (List.map fixSection (a :: as)) = _
        congr 1
        exact List.map_congr_left fun x _ => fixSection_eq_specFixSection x
  · cases kt <;> rfl
  · cases f <;> rfl
  · cases ai <;> rfl
  · cases q <;> rfl

theorem get_transcript_step_nonterminal (polls : Nat → PollResponse)
    (fuel idx elapsed : Nat) (h : isTerminal (polls idx) = false) :
    get_transcript polls (fuel + 1) idx elapsed
      = get_transcript polls fuel (idx + 1) (elapsed + 5) := by
  have h1 : ¬((polls idx).status = "completed") := by
    intro hc
    simp [isTerminal, hc] at h
  have h2 : ¬((polls idx).status = "error") := by
    intro hc
    simp [isTerminal, hc] at h
  simp [get_transcript, h1, h2]

/-- The value the loop body produces at a terminal poll response. -/
def pollOutcome (r : PollResponse) : Except String PollResponse :=
  if r.status = "completed" then Except.ok r
  else Except.error ("Transcription failed: " ++ pyShowOpt r.errMsg)

theorem get_transcript_reaches (polls : Nat → PollResponse) :
    ∀ (k idx elapsed fuel : Nat),
      (∀ i, i < k → isTerminal (polls (idx + i)) = false) →
      isTerminal (polls (idx + k)) = true → k < fuel →
      get_transcript polls fuel idx elapsed
        = some (pollOutcome (polls (idx + k)), elapsed + 5 * k) := by
  intro k
  induction k with
  | zero =>
    intro idx elapsed fuel _ hterm hf
    cases fuel with
    | zero => omega
    | succ f =>
      simp only [Nat.add_zero] at hterm
      by_cases hc : (polls idx).status = "completed"
      · simp [get_transcript, hc, pollOutcome]
      · have he : (polls idx).status = "error" := by
          simp [isTerminal, hc] at hterm
          exact hterm
        simp [get_transcript, hc, he, pollOutcome]
  | succ k ih =>
    intro idx elapsed fuel hpre hterm hf
    cases fuel with
    | zero => omega
    | succ f =>
      have h0 : isTerminal (polls idx) = false := by
        have := hpre 0 (Nat.succ_pos k)
        simpa using this
      rw [get_transcript_step_nonterminal polls f idx elapsed h0]
      have hpre2 : ∀ i, i < k → isTerminal (polls (idx + 1 + i)) = false := by
        intro i hi
        have := hpre (i + 1) (by omega)
        have harith : idx + (i + 1) = idx + 1 + i := by omega
        rwa [harith] at this
      have hterm2 : isTerminal (polls (idx + 1 + k)) = true := by
        have harith : idx + (k + 1) = idx + 1 + k := by omega
        rwa [harith] at hterm
      have := ih (idx + 1) (elapsed + 5) f hpre2 hterm2 (by omega)
      rw [this]
      have harith2 : idx + 1 + k = idx + (k + 1) := by omega
      rw [harith2]
      congr 1
      congr 1
      omega

theorem get_transcript_no_terminal (polls : Nat → PollResponse)
    (h : ∀ i, isTerminal (polls i) = false) :
    ∀ (fuel idx elapsed : Nat), get_transcript polls fuel idx elapsed = none := by
  intro fuel
  induction fuel with
  | zero => intro idx elapsed; rfl
  | succ f ih =>
    intro idx elapsed
    rw [get_transcript_step_nonterminal polls f idx elapsed (h idx)]
    exact ih (idx + 1) (elapsed + 5)

/-- C6: the polling loop terminates exactly at the first terminal status
of the polled sequence, after 5 simulated seconds per preceding poll: on
completed it returns the full response, on error it raises the
transcription failure carrying the provider message; when the sequence has
no terminal status the loop never returns, whatever fuel it is run with. -/
theorem await_completion_spec (polls : Nat → PollResponse) (k : Nat)
    (hpre : ∀ i, i < k → isTerminal (polls i) = false) :
    ((polls k).status = "completed" →
      ∀ fuel, k < fuel →
        get_transcript polls fuel 0 0 = some (Except.ok (polls k), 5 * k))
    ∧ ((polls k).status = "error" →
      ∀ fuel, k < fuel →
        get_transcript polls fuel 0 0 =
          some (Except.error ("Transcription failed: " ++ pyShowOpt (polls k).errMsg), 5 * k))
    ∧ ((∀ i, isTerminal (polls i) = false) →
      ∀ fuel, get_transcript polls fuel 0 0 = none) := by
  have hz : ∀ i, (0 : Nat) + i = i := by omega
  refine ⟨?_, ?_, ?_⟩
  · intro hc fuel hf
    have hterm : isTerminal (polls (0 + k)) = true := by
      rw [hz]
      simp [isTerminal, hc]
    have := get_transcript_reaches polls k 0 0 fuel
      (by intro i hi; rw [hz]; exact hpre i hi) hterm hf
    rw [this, hz, pollOutcome, if_pos hc, Nat.zero_add]
  · intro he fuel hf
    have hterm : isTerminal (polls (0 + k)) = true := by
      rw [hz]
      simp [isTerminal, he]
    have hnc : ¬((polls k).status = "completed") := by
      intro hc
      rw [hc] at he
      exact absurd he (by decide)
    have := get_transcript_reaches polls k 0 0 fuel
      (by intro i hi; rw [hz]; exact hpre i hi) hterm hf
    rw [this, hz, pollOutcome, if_neg hnc, Nat.zero_add]
  · intro hall fuel
    exact get_transcript_no_terminal polls hall fuel 0 0

/-- The example status sequence of the claim: processing, processing, then
completed. -/
def pollsEx : Nat → PollResponse := fun i =>
  if i < 2 then { status := "processing", text := "", errMsg := none }
  else { status := "completed", text := "the full lecture transcript", errMsg := none }

/-- C6 witness: on the sequence processing, processing, completed the loop
returns the completed response after 10 simulated seconds. -/
theorem await_completion_spec_witness :
    get_transcript pollsEx 5 0 0
        = some (Except.ok
            { status := "completed", text := "the full lecture transcript", errMsg := none }, 10)
      ∧ 10 ≤ 10 := by
  have h := (await_completion_spec pollsEx 2 (by decide)).1 (by decide) 5 (by decide)
  rw [h]
  exact ⟨rfl, by decide⟩

theorem cleanupUnprotected_state (env : PipeEnv) (res : RunResult) (st : PipeState) :
    ((cleanupUnprotected env res st).2).status = st.status
      ∧ ((cleanupUnprotected env res st).2).notes = st.notes := by
  unfold cleanupUnprotected
  split
  · split
    · exact ⟨rfl, rfl⟩
    · exact ⟨rfl, rfl⟩
  · exact ⟨rfl, rfl⟩

theorem failPath_state (env : PipeEnv) (st : PipeState) (e : String)
    (h : env.updFailedOk = true) :
    ((failPath env st e).2).status = some LStatus.failed
      ∧ ((failPath env st e).2).notes = st.notes := by
  unfold failPath
  rw [h, if_pos rfl]
  have hc := cleanupUnprotected_state env (RunResult.httpError 500 e)
    { st with status := some LStatus.failed, errorField := some e }
  exact ⟨hc.1, hc.2⟩

theorem failPath_status_cases (env : PipeEnv) (st : PipeState) (e : String) :
    ((failPath env st e).2).status = some LStatus.failed
      ∨ ((failPath env st e).2).status = st.status := by
  unfold failPath
  cases h : env.updFailedOk with
  | false => right; simp
  | true =>
    left
    rw [if_pos rfl]
    exact (cleanupUnprotected_state env (RunResult.httpError 500 e)
      { st with status := some LStatus.failed, errorField := some e }).1

/-- C1 (amended): provided the lecture insert and both status updates
succeed, every upload run leaves the record either completed with exactly
one note record referencing it or failed with none — never processing and
never failed with a note. -/
theorem upload_terminal_invariant (env : PipeEnv)
    (h1 : env.lectureInsertOk = true) (h2 : env.updCompletedOk = true)
    (h3 : env.updFailedOk = true) :
    terminalInvariant (upload_lecture env).2 := by
  have hfail : ∀ (st : PipeState) (e : String), st.notes = 0 →
      terminalInvariant (failPath env st e).2 := by
    intro st e hn
    have h := failPath_state env st e h3
    right
    exact ⟨h.1, by rw [h.2, hn]⟩
  rcases htr : env.transcribeResult with e | text
  · simp only [upload_lecture, h1, if_pos rfl, htr]
    exact hfail _ _ rfl
  · rcases hg : generate_notes_sync text env.genOutcome with e | notes
    · simp only [upload_lecture, h1, if_pos rfl, htr, hg]
      exact hfail _ _ rfl
    · cases hni : env.noteInsertOk with
      | false =>
        simp only [upload_lecture, h1, if_pos rfl, htr, hg, hni, Bool.false_eq_true,
          if_neg, ite_false]
        exact hfail _ _ rfl
      | true =>
        cases hr : env.removeOk with
        | false =>
          simp [upload_lecture, h1, htr, hg, hni, h2, hr, terminalInvariant]
        | true =>
          simp [upload_lecture, h1, htr, hg, hni, h2, hr, terminalInvariant]

/-- Environment of a fully successful run (the provider raised, so the run
stores fallback notes, which still counts as success at the pipeline). -/
def envAllOk : PipeEnv :=
  { transcribeResult := Except.ok sampleTranscript
    genOutcome := GenOutcome.raiseExc "provider unavailable"
    lectureInsertOk := true, noteInsertOk := true, updCompletedOk := true
    updFailedOk := true, removeOk := true }

/-- C1 witness: the invariant at a concrete all-successful run. -/
theorem upload_terminal_invariant_witness :
    envAllOk.lectureInsertOk = true ∧ envAllOk.updCompletedOk = true
      ∧ envAllOk.updFailedOk = true
      ∧ terminalInvariant (upload_lecture envAllOk).2 :=
  ⟨rfl, rfl, rfl, upload_terminal_invariant envAllOk rfl rfl rfl⟩

/-- Environment in which the note insert succeeds but the update of the
lecture status to completed fails, so the except block marks the record
failed although one note record referencing it was already stored. -/
def envC1 : PipeEnv :=
  { transcribeResult := Except.ok sampleTranscript
    genOutcome := GenOutcome.parsed rawAllAbsent
    lectureInsertOk := true, noteInsertOk := true, updCompletedOk := false
    updFailedOk := true, removeOk := true }

/-- C1 counterexample: when the completed-status update fails after the
note insert, the run terminates with status failed and one note record
referencing the lecture — violating the claimed invariant. -/
theorem upload_terminal_invariant_counterexample :
    (upload_lecture envC1).2.status = some LStatus.failed
      ∧ (upload_lecture envC1).2.notes = 1
      ∧ ¬ terminalInvariant (upload_lecture envC1).2 := by
  refine ⟨by decide, by decide, ?_⟩
  intro hc
  rcases hc with ⟨h1, _⟩ | ⟨_, h2⟩
  · rw [show (upload_lecture envC1).2.status = some LStatus.failed from by decide] at h1
    exact absurd h1 (by decide)
  · rw [show (upload_lecture envC1).2.notes = 1 from by decide] at h2
    exact absurd h2 (by decide)

theorem upload_file_removed_or_processing (env : PipeEnv)
    (hr : env.removeOk = true) :
    (upload_lecture env).2.fileExists = false
      ∨ (upload_lecture env).2.status = some LStatus.processing := by
  have hclean : ∀ (res : RunResult) (st : PipeState), st.fileExists = true →
      (cleanupUnprotected env res st).2.fileExists = false := by
    intro res st hf
    simp [cleanupUnprotected, hf, hr]
  have hfp : ∀ (st : PipeState) (e : String), st.fileExists = true →
      ((failPath env st e).2.fileExists = false
        ∨ (failPath env st e).2.status = st.status) := by
    intro st e hf
    unfold failPath
    cases huf : env.updFailedOk with
    | false => right; simp
    | true =>
      left
      rw [if_pos rfl]
      exact hclean _ _ hf
  cases h1 : env.lectureInsertOk with
  | false =>
    left
    simp only [upload_lecture, h1, Bool.false_eq_true, if_neg, ite_false]
    exact hclean _ _ rfl
  | true =>
    rcases htr : env.transcribeResult with e | text
    · simp only [upload_lecture, h1, if_pos rfl, htr]
      exact hfp _ _ rfl
    · rcases hg : generate_notes_sync text env.genOutcome with e | notes
      · simp only [upload_lecture, h1, if_pos rfl, htr, hg]
        exact hfp _ _ rfl
      · cases hni : env.noteInsertOk with
        | false =>
          simp only [upload_lecture, h1, if_pos rfl, htr, hg, hni,
            Bool.false_eq_true, if_neg, ite_false]
          exact hfp _ _ rfl
        | true =>
          cases huc : env.updCompletedOk with
          | false =>
            simp only [upload_lecture, h1, if_pos rfl, htr, hg, hni, huc,
              Bool.false_eq_true, if_neg, ite_false, if_pos rfl]
            exact hfp _ _ rfl
          | true =>
            left
            simp [upload_lecture, h1, htr, hg, hni, huc, hr]

/-- C7 (amended): whenever the removal operation itself succeeds, on every
exit path whose record ends completed or failed — fallback-recovered runs
included — the staged transient asset is absent from storage when the run
returns; cleanup is not conditioned on the synthesis outcome. -/
theorem upload_cleanup_on_terminal (env : PipeEnv) (hr : env.removeOk = true)
    (hterm : (upload_lecture env).2.status = some LStatus.completed
      ∨ (upload_lecture env).2.status = some LStatus.failed) :
    (upload_lecture env).2.fileExists = false := by
  rcases upload_file_removed_or_processing env hr with h | h
  · exact h
  · rcases hterm with ht | ht <;> rw [h] at ht <;> exact absurd ht (by decide)

/-- Environment for the C7 witness: fully successful run with a working
removal. -/
def env7 : PipeEnv :=
  { transcribeResult := Except.ok sampleTranscript
    genOutcome := GenOutcome.raiseExc "provider gave no JSON"
    lectureInsertOk := true, noteInsertOk := true, updCompletedOk := true
    updFailedOk := true, removeOk := true }

/-- C7 witness: a concrete completed run with working removal leaves no
staged file. -/
theorem upload_cleanup_on_terminal_witness :
    env7.removeOk = true
      ∧ (upload_lecture env7).2.status = some LStatus.completed
      ∧ (upload_lecture env7).2.fileExists = false :=
  ⟨rfl, by decide, upload_cleanup_on_terminal env7 rfl (Or.inl (by decide))⟩

/-- Environment for the C7 counterexample: everything succeeds except the
removal of the staged file, whose failure the success path swallows. -/
def envC7 : PipeEnv :=
  { transcribeResult := Except.ok sampleTranscript
    genOutcome := GenOutcome.raiseExc "provider gave no JSON"
    lectureInsertOk := true, noteInsertOk := true, updCompletedOk := true
    updFailedOk := true, removeOk := false }

/-- C7 counterexample: a run that returns completed while the staged asset
is still present in storage (the removal raised and was swallowed), so the
asset is not removed on every exit path as claimed. -/
theorem upload_cleanup_counterexample :
    (upload_lecture envC7).2.status = some LStatus.completed
      ∧ (upload_lecture envC7).2.fileExists = true := by
  exact ⟨by decide, by decide⟩

/-- C8 (amended): on the completed path a failure of the cleanup step is
silently swallowed and does not change the outcome reported to the caller:
the run with a failing removal returns exactly what the run with a working
removal returns.  (On the failed path the source does not protect the
removal, so there a cleanup error replaces the reported outcome; see the
counterexample.) -/
theorem cleanup_failure_swallowed_on_completed (env : PipeEnv)
    (hc : (upload_lecture { env with removeOk := true }).2.status
      = some LStatus.completed) :
    (upload_lecture { env with removeOk := false }).1
      = (upload_lecture { env with removeOk := true }).1 := by
  cases h1 : env.lectureInsertOk with
  | false =>
    exfalso
    rw [show (upload_lecture { env with removeOk := true }).2
        = (cleanupUnprotected { env with removeOk := true }
            (RunResult.httpError 500 "lecture insert raised")
            { status := none, errorField := none, notes := 0, fileExists := true }).2 by
      simp [upload_lecture, h1]] at hc
    rw [(cleanupUnprotected_state _ _ _).1] at hc
    exact absurd hc (by decide)
  | true =>
    rcases htr : env.transcribeResult with e | text
    · exfalso
      rw [show (upload_lecture { env with removeOk := true }).2
          = (failPath { env with removeOk := true }
              { status := some LStatus.processing, errorField := none,
                notes := 0, fileExists := true } e).2 by
        simp [upload_lecture, h1, htr]] at hc
      rcases failPath_status_cases { env with removeOk := true }
          { status := some LStatus.processing, errorField := none,
            notes := 0, fileExists := true } e with hs | hs <;>
        rw [hs] at hc <;> exact absurd hc (by decide)
    · rcases hg : generate_notes_sync text env.genOutcome with e | notes
      · exfalso
        rw [show (upload_lecture { env with removeOk := true }).2
            = (failPath { env with removeOk := true }
                { status := some LStatus.processing, errorField := none,
                  notes := 0, fileExists := true } e).2 by
          simp [upload_lecture, h1, htr, hg]] at hc
        rcases failPath_status_cases { env with removeOk := true }
            { status := some LStatus.processing, errorField := none,
              notes := 0, fileExists := true } e with hs | hs <;>
          rw [hs] at hc <;> exact absurd hc (by decide)
      · cases hni : env.noteInsertOk with
        | false =>
          exfalso
          rw [show (upload_lecture { env with removeOk := true }).2
              = (failPath { env with removeOk := true }
                  { status := some LStatus.processing, errorField := none,
                    notes := 0, fileExists := true } "note insert raised").2 by
            simp [upload_lecture, h1, htr, hg, hni]] at hc
          rcases failPath_status_cases { env with removeOk := true }
              { status := some LStatus.processing, errorField := none,
                notes := 0, fileExists := true } "note insert raised" with hs | hs <;>
            rw [hs] at hc <;> exact absurd hc (by decide)
        | true =>
          cases huc : env.updCompletedOk with
          | false =>
            exfalso
            rw [show (upload_lecture { env with removeOk := true }).2
                = (failPath { env with removeOk := true }
                    { status := some LStatus.processing, errorField := none,
                      notes := 0 + 1, fileExists := true }
                    "update to completed raised").2 by
              simp [upload_lecture, h1, htr, hg, hni, huc]] at hc
            rcases failPath_status_cases { env with removeOk := true }
                { status := some LStatus.processing, errorField := none,
                  notes := 0 + 1, fileExists := true }
                "update to completed raised" with hs | hs <;>
              rw [hs] at hc <;> exact absurd hc (by decide)
          | true =>
            simp [upload_lecture, h1, htr, hg, hni, huc]

/-- Environment for the C8 witness: a run that reaches the completed path. -/
def env8 : PipeEnv :=
  { transcribeResult := Except.ok sampleTranscript
    genOutcome := GenOutcome.raiseExc "rate limited"
    lectureInsertOk := true, noteInsertOk := true, updCompletedOk := true
    updFailedOk := true, removeOk := true }

/-- C8 witness: on a concrete completed run the result is unchanged when
the removal fails. -/
theorem cleanup_failure_swallowed_witness :
    (upload_lecture { env8 with removeOk := true }).2.status = some LStatus.completed
      ∧ (upload_lecture { env8 with removeOk := false }).1
        = (upload_lecture { env8 with removeOk := true }).1 :=
  ⟨by decide, cleanup_failure_swallowed_on_completed env8 (by decide)⟩

/-- Environment for the C8 counterexample: the transcription fails and the
removal of the staged file fails too. -/
def envC8 : PipeEnv :=
  { transcribeResult := Except.error "transcription provider down"
    genOutcome := GenOutcome.raiseExc "unused"
    lectureInsertOk := true, noteInsertOk := true, updCompletedOk := true
    updFailedOk := true, removeOk := false }

/-- C8 counterexample: on the failed path a cleanup failure is not
swallowed — it escapes uncaught and replaces the HTTP 500 outcome the same
run reports when the removal works, so the claim fails on this exit path. -/
theorem cleanup_failure_uncaught_counterexample :
    (upload_lecture envC8).1 = RunResult.uncaught "os.remove raised"
      ∧ (upload_lecture { envC8 with removeOk := true }).1
        = RunResult.httpError 500 "transcription provider down" := by
  exact ⟨by decide, by decide⟩

theorem bne_of_all_ne {l : List LectureDoc} {lid : String}
    (h : l.all (fun x => x.id != lid) = true) :
    l.any (fun x => x.id == lid) = false := by
  rw [List.any_eq_false]
  intro a ha
  have := List.all_eq_true.mp h a ha
  simpa using this

/-- C9 (amended): a delete call whose lecture id matches no stored lecture
reports an internal error (HTTP 500) whose detail wraps the not-found
message — the 404 raised inside the try block is caught by the catch-all
and re-wrapped — and this happens only after every note record referencing
that id has already been deleted, so the not-found path does not leave the
notes collection unchanged. -/
theorem delete_lecture_notfound (db : DB) (lid : String)
    (h : db.lectures.all (fun l => l.id != lid) = true) :
    (delete_lecture db lid).1 = DeleteResult.httpError 500 "404: Lecture not found"
      ∧ ((delete_lecture db lid).2).notes
        = db.notes.filter (fun n => n.lecture_id != lid)
      ∧ ((delete_lecture db lid).2).notes.all (fun n => n.lecture_id != lid) = true := by
  have hany := bne_of_all_ne h
  have hnotes : ((delete_lecture db lid).2).notes
      = db.notes.filter (fun n => n.lecture_id != lid) := by
    unfold delete_lecture
    split <;> rfl
  refine ⟨?_, hnotes, ?_⟩
  · simp [delete_lecture, hany]
  · rw [hnotes, List.all_eq_true]
    intro n hn
    exact (List.mem_filter.mp hn).2

/-- Database for the C9 witness and counterexample: no lecture matches the
id, but one note references it. -/
def db9 : DB :=
  { lectures := []
    notes := [{ lecture_id := "66f1a2b3c4d5e6f7a8b9c0d1", user_id := "u1" }] }

/-- C9 witness: the amended behavior at the concrete database. -/
theorem delete_lecture_notfound_witness :
    db9.lectures.all (fun l => l.id != "66f1a2b3c4d5e6f7a8b9c0d1") = true
      ∧ (delete_lecture db9 "66f1a2b3c4d5e6f7a8b9c0d1").1
        = DeleteResult.httpError 500 "404: Lecture not found"
      ∧ ((delete_lecture db9 "66f1a2b3c4d5e6f7a8b9c0d1").2).notes.all
          (fun n => n.lecture_id != "66f1a2b3c4d5e6f7a8b9c0d1") = true :=
  ⟨rfl, (delete_lecture_notfound db9 "66f1a2b3c4d5e6f7a8b9c0d1" rfl).1,
    (delete_lecture_notfound db9 "66f1a2b3c4d5e6f7a8b9c0d1" rfl).2.2⟩

/-- C9 counterexample: at the concrete database the endpoint does not
report status 404 — the response carries status code 500 — although the
note referencing the id was indeed already deleted, so the claim as stated
(the endpoint reports not-found) is false. -/
theorem delete_lecture_notfound_counterexample :
    statusCodeOf (delete_lecture db9 "66f1a2b3c4d5e6f7a8b9c0d1").1 ≠ some 404
      ∧ statusCodeOf (delete_lecture db9 "66f1a2b3c4d5e6f7a8b9c0d1").1 = some 500
      ∧ ((delete_lecture db9 "66f1a2b3c4d5e6f7a8b9c0d1").2).notes = []
      ∧ db9.notes ≠ [] := by
  refine ⟨by decide, by decide, by decide, by decide⟩

/-- C10: the list endpoint returns at most 100 records, in descending
order of upload date, and every returned record has its file_path field
stripped. -/
theorem get_user_lectures_spec (db : DB) (uid : String) :
    (get_user_lectures db uid).length ≤ 100
      ∧ (get_user_lectures db uid).Pairwise
          (fun a b => b.upload_date ≤ a.upload_date)
      ∧ (get_user_lectures db uid).all (fun l => l.file_path.isNone) = true := by
  refine ⟨?_, ?_, ?_⟩
  · simp only [get_user_lectures, List.length_map]
    exact List.length_take_le _ _
  · have hsort := @List.sorted_mergeSort LectureDoc
      (fun (a b : LectureDoc) => decide (b.upload_date ≤ a.upload_date))
      (fun a b c hab hbc => by
        simp only [decide_eq_true_eq] at *
        omega)
      (fun a b => by
        simp only [Bool.or_eq_true, decide_eq_true_eq]
        omega)
      (db.lectures.filter (fun l => l.user_id == uid))
    have htake := hsort.sublist (List.take_sublist 100 _)
    simp only [get_user_lectures, List.pairwise_map]
    exact htake.imp (fun hab => by simpa using hab)
  · simp only [get_user_lectures]
    rw [List.all_eq_true]
    intro l hl
    rw [List.mem_map] at hl
    obtain ⟨x, _, rfl⟩ := hl
    rfl
